import Mathlib

/-!
Verification of the `uchebprog` repository: a transform pipeline
(`generate_programs.py`, mapping spreadsheet rows to canonical program
records) and a collection pipeline (`parser_educational_programs.py`,
multi-source scraping with a synthetic fallback, deduplication and id
reassignment).  The Python code is shallowly embedded: strings are
`String`/`List Char`, dict rows are association lists, network effects are
an explicit environment, and Python exceptions are `Except`.
-/

namespace Uchebprog

/-! Basic string operations (Python `str` helpers) -/

/-- Python whitespace stripped by `str.strip()` (the characters occurring in
this code base's data: space, tab, newline, carriage return, vertical tab,
form feed). -/
def isPySpace (c : Char) : Bool :=
  c = ' ' || c = '\t' || c = '\n' || c = '\r' || c = '\x0b' || c = '\x0c'

/-- Trim as `str.strip()`: drop leading and trailing whitespace. -/
def pyStrip (l : List Char) : List Char :=
  ((l.dropWhile isPySpace).reverse.dropWhile isPySpace).reverse

def pyStripS (s : String) : String := String.mk (pyStrip s.data)

/-- Is `pat` a prefix of `l`? -/
def isPre : List Char → List Char → Bool
  | [], _ => true
  | _ :: _, [] => false
  | a :: as, b :: bs => a = b && isPre as bs

/-- Python's `needle in haystack` substring test. -/
def containsSub (needle : List Char) : List Char → Bool
  | [] => needle.isEmpty
  | c :: rest => isPre needle (c :: rest) || containsSub needle rest

/-- Lowercasing as `str.lower()` acts on the ASCII and Cyrillic letters
appearing in this repository's data. -/
def pyLowerChar (c : Char) : Char :=
  if 'A' ≤ c ∧ c ≤ 'Z' then Char.ofNat (c.toNat + 32)
  else if c = 'Ё' then 'ё'
  else if 'А' ≤ c ∧ c ≤ 'Я' then Char.ofNat (c.toNat + 32)
  else c

def pyLower (l : List Char) : List Char := l.map pyLowerChar

/-- Escape one character as `html.escape` (quote=True) does. -/
def escChar (c : Char) : List Char :=
  if c = '&' then "&amp;".data
  else if c = '<' then "&lt;".data
  else if c = '>' then "&gt;".data
  else if c = '"' then "&quot;".data
  else if c = '\'' then "&#x27;".data
  else [c]

/-- Escaping as `html.escape(s, quote=True)`: the chained `str.replace` calls of the
CPython implementation amount to this character-wise map (the ampersands
introduced by later replacements are never re-examined because `&` is
replaced first). -/
def htmlEscape : List Char → List Char
  | [] => []
  | c :: cs => escChar c ++ htmlEscape cs

def hEsc (s : String) : String := String.mk (htmlEscape s.data)

/-- The first maximal run of decimal digits in a string
(`re.findall(r'\d+', s)[0]`). -/
def firstRun : List Char → Option (List Char)
  | [] => none
  | c :: rest => if c.isDigit then some (c :: rest.takeWhile Char.isDigit) else firstRun rest

/-- Parse a run of decimal digits as `int` does. -/
def digitsToNat (ds : List Char) : Nat :=
  ds.foldl (fun n c => n * 10 + (c.toNat - 48)) 0

/-- First-match association-list lookup (Python dict access for the literal
dicts of this code base, whose keys are distinct). -/
def assocFind (k : String) : List (String × String) → Option String
  | [] => none
  | (k', v) :: rest => if k = k' then some v else assocFind k rest

/-! The transform pipeline (`generate_programs.py`) -/

/-- One CSV row: a mapping from column name to raw string value. -/
abbrev Row := List (String × String)

def rowFind (row : Row) (k : String) : Option String := assocFind k row

/-- Row access `program_data.get(key, '')`. -/
def rowGet (row : Row) (k : String) : String := (rowFind row k).getD ""

/-- The canonical program record built by `generate_program_card`
(the Python dict `program_obj`, in insertion order). -/
structure ProgramObj where
  title : String
  fgos_code : String
  fgos_name : String
  institution : String
  district : String
  level : String
  level_readable : String
  base : String
  duration : String
  category : String
  tags : List String
  places : Nat
  salary : String
  desc : String
  color : String
  quiz_cat : String
  url : String
deriving DecidableEq

/-- Function `generate_program_card`: map one raw row to the canonical record.
Every string field is passed through `html.escape(...).strip()` first;
the education level is classified by the marker substring `СПО`; the
budget-seat count is extracted from free text. -/
def generate_program_card (program_data : Row) : ProgramObj :=
  let title := hEsc (pyStripS (rowGet program_data "program_name"))
  let education_level := hEsc (pyStripS (rowGet program_data "education_level"))
  let institution := hEsc (pyStripS (rowGet program_data "institution_name"))
  let region := hEsc (pyStripS (rowGet program_data "region"))
  let budget_seats := hEsc (pyStripS (rowGet program_data "budget_seats"))
  let url := hEsc (pyStripS (rowGet program_data "url"))
  let fgos_code := hEsc (pyStripS (rowGet program_data "fgos_code"))
  let macrogroup_name := hEsc (pyStripS (rowGet program_data "macrogroup_name"))
  let level := if !containsSub "СПО".data education_level.data then "VO" else "SPO"
  let level_readable :=
    if !containsSub "СПО".data education_level.data then "Бакалавриат" else "Колледж"
  let places :=
    if !budget_seats.data.isEmpty then
      match firstRun budget_seats.data with
      | some ds => digitsToNat ds
      | none => if containsSub "Есть бюджетные места".data budget_seats.data then 1 else 0
    else 0
  let tags := ["Бюджет"]
  let description := if macrogroup_name ≠ "" then macrogroup_name
                     else "Описание программы загружается..."
  { title := if title ≠ "" then title else "Без названия"
    fgos_code := if fgos_code ≠ "" then fgos_code else "—"
    fgos_name := macrogroup_name
    institution := if institution ≠ "" then institution else "Не указан"
    district := if region ≠ "" then region else "РФ"
    level := level
    level_readable := level_readable
    base := "11 классов"
    duration := "4 года"
    category := if macrogroup_name ≠ "" then macrogroup_name else "Общее"
    tags := tags
    places := places
    salary := "по итогам"
    desc := description
    color := "blue"
    quiz_cat := "Tech"
    url := url }

/-! `json.dumps(program_obj, ensure_ascii=False)` -/

def hexDigit (n : Nat) : Char :=
  if n < 10 then Char.ofNat (48 + n) else Char.ofNat (87 + n)

/-- JSON string-character escaping as performed by `json.dumps` with
`ensure_ascii=False`. -/
def jsonEscChar (c : Char) : List Char :=
  if c = '"' then [ '\\', '"' ]
  else if c = '\\' then [ '\\', '\\' ]
  else if c = '\n' then [ '\\', 'n' ]
  else if c = '\t' then [ '\\', 't' ]
  else if c = '\r' then [ '\\', 'r' ]
  else if c = '\x08' then [ '\\', 'b' ]
  else if c = '\x0c' then [ '\\', 'f' ]
  else if c.toNat < 32 then
    [ '\\', 'u', '0', '0', hexDigit (c.toNat / 16), hexDigit (c.toNat % 16) ]
  else [c]

def jsonEsc : List Char → List Char
  | [] => []
  | c :: cs => jsonEscChar c ++ jsonEsc cs

def jsonString (s : String) : String := "\"" ++ String.mk (jsonEsc s.data) ++ "\""

def joinSep (sep : String) : List String → String
  | [] => ""
  | [s] => s
  | s :: rest => s ++ sep ++ joinSep sep rest

/-- Serialization `json.dumps` of the record, with the default separators and the dict's
insertion order. -/
def jsDumps (p : ProgramObj) : String :=
  "\x7b\"title\": " ++ jsonString p.title ++
  ", \"fgos_code\": " ++ jsonString p.fgos_code ++
  ", \"fgos_name\": " ++ jsonString p.fgos_name ++
  ", \"institution\": " ++ jsonString p.institution ++
  ", \"district\": " ++ jsonString p.district ++
  ", \"level\": " ++ jsonString p.level ++
  ", \"level_readable\": " ++ jsonString p.level_readable ++
  ", \"base\": " ++ jsonString p.base ++
  ", \"duration\": " ++ jsonString p.duration ++
  ", \"category\": " ++ jsonString p.category ++
  ", \"tags\": [" ++ joinSep ", " (p.tags.map jsonString) ++ "]" ++
  ", \"places\": " ++ toString p.places ++
  ", \"salary\": " ++ jsonString p.salary ++
  ", \"desc\": " ++ jsonString p.desc ++
  ", \"color\": " ++ jsonString p.color ++
  ", \"quiz_cat\": " ++ jsonString p.quiz_cat ++
  ", \"url\": " ++ jsonString p.url ++ "\x7d"

/-- The string returned by the Python `generate_program_card`. -/
def generate_program_card_js (row : Row) : String := jsDumps (generate_program_card row)

/-- The fields `main` requires to be present and non-blank. -/
def required_fields : List String := ["program_name", "url"]

/-- The row-validation loop of `main`: returns the generated record strings
and the skipped (warned-about) rows, in order. -/
def mainLoop : List Row → List String × List Row
  | [] => ([], [])
  | row :: rest =>
    let missing_fields := required_fields.filter fun f =>
      match rowFind row f with
      | none => true
      | some v => (pyStrip v.data).isEmpty
    let (recs, skipped) := mainLoop rest
    if missing_fields ≠ [] then (recs, row :: skipped)
    else (generate_program_card_js row :: recs, skipped)

/-- The observable outcome of `main`. -/
inductive MainOutcome where
  | fatal : MainOutcome
  | emptyInfo : MainOutcome
  | noneInfo : MainOutcome
  | wrote : String → MainOutcome
deriving DecidableEq

/-- Entry point `main` of `generate_programs.py`: a `none` input models a missing or
unreadable `table.csv` (`sys.exit(1)`); an empty table and a table with no
valid row return with an informational message before any file is written;
otherwise `programs.js` is written. -/
def generate_main (input : Option (List Row)) (today : String) : MainOutcome :=
  match input with
  | none => .fatal
  | some data =>
    if data.isEmpty then .emptyInfo
    else
      let js_programs := (mainLoop data).1
      if js_programs.isEmpty then .noneInfo
      else .wrote ("// Сгенерировано автоматически " ++ today ++
        "\nconst programsFromCSV = [\n" ++ joinSep ",\n" js_programs ++ "\n];")

/-- Does the outcome write an output file? -/
def writesFile : MainOutcome → Bool
  | .wrote _ => true
  | _ => false

/-- Does the outcome terminate the process with an error exit? -/
def isErrorExit : MainOutcome → Bool
  | .fatal => true
  | _ => false

/-! The collection pipeline (`parser_educational_programs.py`) -/

/-- A collected program record (the dict `program_data` built by parser
methods). -/
structure Rec where
  id : Nat
  macrogroup_id : String
  macrogroup_name : String
  education_level : String
  fgos_code : String
  program_name : String
  institution_name : String
  region : String
  budget_seats : Nat
  url : String
deriving DecidableEq

/-- The data extracted from one HTML result element: each sub-element
(`element.find(...)`) may be absent. Texts are already
`get_text(strip=True)`-normalized. -/
structure RawElem where
  program_name : Option String
  institution_name : Option String
  budget_text : Option String
  href : Option String
deriving DecidableEq

/-- A Python exception (its message). -/
abbrev Exc := String

/-- The external world seen by the parser: each `session.get` either raises
or yields a status code (and, for search pages, the parsed result
elements); `random.randint` draws are a function of the specialty code and
the draw index; writing the output files may raise. -/
structure Env where
  vuzBase : Except Exc Nat
  postupiBase : Except Exc Nat
  vuzSearch : String → Except Exc (Nat × List RawElem)
  collSearch : String → Except Exc (Nat × List RawElem)
  postupiSearch : String → String → Except Exc (Nat × List RawElem)
  rand : String → Nat → Nat
  writeResult : Except Exc Unit

def gov_keywords : List String :=
  ["государственный", "федеральный", "национальный",
   "российский", "рф", "р.ф.", "министерство", "мвд", "мчс"]

/-- Check `is_government_institution`: any government keyword occurs in the
lowercased institution name. -/
def is_government_institution (name : String) : Bool :=
  gov_keywords.any fun keyword => containsSub keyword.data (pyLower name.data)

/-- Suffix of `l` after the first occurrence of `pat`, if any. -/
def afterSub (pat : List Char) : List Char → Option (List Char)
  | [] => if pat.isEmpty then some [] else none
  | c :: rest =>
    if isPre pat (c :: rest) then some ((c :: rest).drop pat.length)
    else afterSub pat rest

/-- Path extraction `urlparse(url).path` for the URLs of this code base: the part after the
authority, cut at `?` or `#`. -/
def urlPath (url : List Char) : List Char :=
  match afterSub "://".data url with
  | some rest => (rest.dropWhile (fun c => c ≠ '/')).takeWhile (fun c => !(c = '?' || c = '#'))
  | none => url.takeWhile (fun c => !(c = '?' || c = '#'))

/-- Split as `str.split(sep)` for a one-character separator. -/
def splitOnChar (sep : Char) : List Char → List (List Char)
  | [] => [[]]
  | c :: rest =>
    let r := splitOnChar sep rest
    if c = sep then [] :: r
    else
      match r with
      | [] => [[c]]
      | h :: t => (c :: h) :: t

/-- The per-part keyword scan of `extract_region_from_url`. -/
def regionOfParts : List (List Char) → String
  | [] => "Россия"
  | part :: rest =>
    let lp := pyLower part
    if containsSub "moscow".data lp || containsSub "москва".data lp then "Москва"
    else if containsSub "spb".data lp || containsSub "санкт-петербург".data lp ||
            containsSub "питер".data lp then "Санкт-Петербург"
    else if containsSub "novosibirsk".data lp || containsSub "новосибирск".data lp then
      "Новосибирск"
    else regionOfParts rest

/-- Function `extract_region_from_url`. -/
def extract_region_from_url (url : String) : String :=
  regionOfParts (splitOnChar '/' (urlPath url.data))

/-- Join as `urljoin`, restricted to the bases used here (absolute
`scheme://host` URLs with an empty path). -/
def urljoinM (base rel : String) : String :=
  if containsSub "://".data rel.data then rel
  else if isPre "/".data rel.data then base ++ rel
  else base ++ "/" ++ rel

def vuzopediaBase : String := "https://vuzopedia.ru"
def postupiBaseUrl : String := "https://postupi.online"

/-- The per-element extraction loop shared by the three scraper parsers:
skip elements missing a program or institution sub-element, skip
non-government institutions, extract the first number of the budget text,
resolve the href against the source's base URL, and keep only records with
a positive budget-seat count.  `dataLen` is `len(self.data)` and `k` the
number of programs already appended (they determine the provisional id). -/
def elemsToPrograms (base lvl fgos mg mgname : String) (dataLen : Nat) :
    List RawElem → Nat → List Rec
  | [], _ => []
  | e :: es, k =>
    match e.program_name, e.institution_name with
    | some pn, some inst =>
      if is_government_institution inst then
        let seats :=
          match e.budget_text with
          | some t =>
            match firstRun t.data with
            | some ds => digitsToNat ds
            | none => 0
          | none => 0
        let url := match e.href with
                   | some h => urljoinM base h
                   | none => ""
        let region := if url ≠ "" then extract_region_from_url url else "Россия"
        if 0 < seats then
          { id := dataLen + k + 1, macrogroup_id := mg, macrogroup_name := mgname,
            education_level := lvl, fgos_code := fgos, program_name := pn,
            institution_name := inst, region := region, budget_seats := seats,
            url := url } :: elemsToPrograms base lvl fgos mg mgname dataLen es (k + 1)
        else elemsToPrograms base lvl fgos mg mgname dataLen es k
      else elemsToPrograms base lvl fgos mg mgname dataLen es k
    | _, _ => elemsToPrograms base lvl fgos mg mgname dataLen es k

/-- Table `real_institutions['Высшее']` of `parse_alternative_source`:
(name, site, region, program URL). -/
def real_institutions_vo : List (String × String × String × String) :=
  [("Московский государственный университет", "https://www.msu.ru", "Москва",
    "https://www.msu.ru/en/education/programmes/bachelor/informatics-and-computer-engineering.html"),
   ("Санкт-Петербургский государственный университет", "https://spbu.ru", "Санкт-Петербург",
    "https://spbu.ru/education/programmes/bachelor/computer-science"),
   ("Новосибирский государственный университет", "https://nsu.ru", "Новосибирск",
    "https://nsu.ru/education/programs/undergraduate/computer-science"),
   ("Уральский федеральный университет", "https://urfu.ru", "Екатеринбург",
    "https://urfu.ru/education/programmes/bachelor/informatics/"),
   ("Казанский федеральный университет", "https://kpfu.ru", "Казань",
    "https://kpfu.ru/education/programmes/bachelor/informatics"),
   ("Национальный исследовательский ядерный университет МИФИ", "https://mephi.ru", "Москва",
    "https://mephi.ru/education/specialties/09.03.01"),
   ("Московский авиационный институт", "https://mai.ru", "Москва",
    "https://mai.ru/education/specialities/bachelor/09.03.01"),
   ("Московский институт электроники и математики НИУ ВШЭ", "https://hse.ru", "Москва",
    "https://hse.ru/ba/infocomp/"),
   ("Самарский национальный исследовательский университет", "https://ssau.ru", "Самара",
    "https://ssau.ru/education/program/456"),
   ("Национальный исследовательский университет МЭИ", "https://mpei.ru", "Москва",
    "https://mpei.ru/education/structure/it/programs/bachelor/09.03.01")]

/-- Table `real_institutions['СПО']`. -/
def real_institutions_spo : List (String × String × String × String) :=
  [("Московский колледж информатики и права", "https://www.mkip.ru", "Москва",
    "https://www.mkip.ru/edu/specialities/09.02.07"),
   ("ГБПОУ Московский технологический колледж", "https://www.mtc-edu.ru", "Москва",
    "https://www.mtc-edu.ru/obuchenie/specialnosti/"),
   ("Колледж программных систем и информационных технологий", "https://www.kpsit.ru", "Москва",
    "https://www.kpsit.ru/abiturientam/specialities/"),
   ("Санкт-Петербургский колледж информационных технологий", "https://www.spbit.ru",
    "Санкт-Петербург", "https://www.spbit.ru/for-applicants/specialties/"),
   ("Колледж связи и информатики НУТ", "https://www.cskit.ru", "Москва",
    "https://www.cskit.ru/abitur/napravleniya/"),
   ("Московский колледж прикладной радиоэлектроники и информатики", "https://www.mcapri.ru",
    "Москва", "https://www.mcapri.ru/specialities/"),
   ("Колледж информатики и программирования", "https://www.kipcollege.ru", "Москва",
    "https://www.kipcollege.ru/obuchenie/specialnosti/"),
   ("Колледж информационных технологий и управления", "https://www.kitumos.ru", "Москва",
    "https://www.kitumos.ru/specialities/"),
   ("Санкт-Петербургский колледж управления и экономики", "https://www.spbce.ru",
    "Санкт-Петербург", "https://www.spbce.ru/education/specialties/"),
   ("Ростовский колледж информационных технологий", "https://www.rcit.ru", "Ростов-на-Дону",
    "https://www.rcit.ru/obuchenie/specialnosti/")]

/-- Lookup `real_institutions.get(education_level, [])`. -/
def real_institutions (education_level : String) : List (String × String × String × String) :=
  if education_level = "Высшее" then real_institutions_vo
  else if education_level = "СПО" then real_institutions_spo
  else []

/-- The FGOS-code → program-name table of `parse_alternative_source`. -/
def program_names : List (String × String) :=
  [("09.03.01", "Прикладная информатика"),
   ("09.03.02", "Информационные системы и технологии"),
   ("10.03.01", "Информационная безопасность"),
   ("01.03.02", "Прикладная математика и информатика"),
   ("09.02.06", "Сетевое и системное администрирование"),
   ("09.02.07", "Программирование в компьютерных системах"),
   ("10.02.05", "Информационная безопасность автоматизированных систем"),
   ("13.03.01", "Теплоэнергетика и теплотехника"),
   ("13.03.02", "Электроэнергетика и электротехника"),
   ("14.03.01", "Ядерные физика и технологии"),
   ("13.02.01", "Техническая эксплуатация энергетического оборудования"),
   ("14.02.01", "Техническая физика"),
   ("15.03.01", "Машиностроение"),
   ("15.03.02", "Прикладная механика"),
   ("15.03.04", "Автоматизация технологических процессов и производств"),
   ("15.02.08", "Технология машиностроения"),
   ("15.01.05", "Сварочное производство"),
   ("23.03.01", "Технология транспортных процессов"),
   ("23.03.03", "Эксплуатация транспортно-технологических машин и комплексов"),
   ("24.03.01", "Ракетные комплексы и космонавтика"),
   ("23.01.03", "Техническое обслуживание и ремонт автомобильного транспорта"),
   ("24.02.01", "Системы управления летательных аппаратов"),
   ("08.03.01", "Строительство"),
   ("08.03.02", "Инфраструктура и городское хозяйство"),
   ("08.04.01", "Строительство"),
   ("08.02.01", "Строительство и эксплуатация зданий и сооружений"),
   ("08.01.03", "Монтаж и техническая эксплуатация промышленного оборудования"),
   ("31.03.01", "Лечебное дело"),
   ("31.03.02", "Педиатрия"),
   ("31.05.01", "Лечебное дело (средний медицинский персонал)"),
   ("31.02.01", "Сестринское дело"),
   ("32.02.01", "Средицинский дела"),
   ("44.03.01", "Педагогическое образование"),
   ("44.03.02", "Психолого-педагогическое образование"),
   ("44.04.01", "Педагогическое образование (магистратура)"),
   ("44.02.01", "Дошкольное образование"),
   ("44.02.02", "Начальное образование"),
   ("38.03.01", "Экономика"),
   ("38.03.02", "Менеджмент"),
   ("38.04.01", "Экономика (магистратура)"),
   ("38.02.01", "Экономика и бухгалтерский учет"),
   ("38.01.02", "Коммерция"),
   ("40.03.01", "Юриспруденция"),
   ("40.04.01", "Юриспруденция (магистратура)"),
   ("40.02.01", "Право и организация социального обеспечения"),
   ("35.03.01", "Агрохимия и агрономия"),
   ("35.03.06", "Агроинженерия"),
   ("35.04.01", "Агрономия (магистратура)"),
   ("35.02.07", "Садоводство и цветоводство"),
   ("35.01.03", "Механизация сельского хозяйства")]

/-- The record-building loop of `parse_alternative_source` over
`institutions[:3]`: keep government institutions, give each a
`randint(5, 50)` budget-seat count, and stop once three programs exist.
(The preceding probe of the two official sites extracts no data in the
source and so does not appear here.) -/
def altBuild (env : Env) (fgos mg mgname lvl : String) (dataLen : Nat) :
    List (String × String × String × String) → Nat → List Rec
  | [], _ => []
  | (inst_name, _inst_url, region, program_url) :: rest, k =>
    if is_government_institution inst_name then
      let pn := (assocFind fgos program_names).getD
        ("Программа по специальности " ++ fgos)
      let seats := 5 + env.rand fgos k % 46
      let r : Rec :=
        { id := dataLen + k + 1, macrogroup_id := mg, macrogroup_name := mgname,
          education_level := lvl, fgos_code := fgos, program_name := pn,
          institution_name := inst_name, region := region, budget_seats := seats,
          url := program_url }
      if 3 ≤ k + 1 then [r]
      else r :: altBuild env fgos mg mgname lvl dataLen rest (k + 1)
    else altBuild env fgos mg mgname lvl dataLen rest k

/-- The records produced by `parse_alternative_source`. -/
def altPrograms (env : Env) (fgos mg mgname lvl : String) (dataLen : Nat) : List Rec :=
  altBuild env fgos mg mgname lvl dataLen ((real_institutions lvl).take 3) 0

/-- Fallback `parse_alternative_source`: its whole body is wrapped in
`try/except`, so it always returns a (possibly empty) list. -/
def parse_alternative_source (env : Env) (fgos mg mgname lvl : String) (dataLen : Nat) :
    Except Exc (List Rec) :=
  .ok (altPrograms env fgos mg mgname lvl dataLen)

/-- Scraper `parse_vuzopedia_vuzi`: check the base site (exception or non-200 →
fallback), fetch the search page (exception or non-200 → fallback), else
process the parsed elements. -/
def parse_vuzopedia_vuzi (env : Env) (fgos mg mgname : String) (dataLen : Nat) :
    Except Exc (List Rec) :=
  match env.vuzBase with
  | .error _ => parse_alternative_source env fgos mg mgname "Высшее" dataLen
  | .ok status =>
    if status ≠ 200 then parse_alternative_source env fgos mg mgname "Высшее" dataLen
    else
      match env.vuzSearch fgos with
      | .error _ => parse_alternative_source env fgos mg mgname "Высшее" dataLen
      | .ok (st, elems) =>
        if st ≠ 200 then parse_alternative_source env fgos mg mgname "Высшее" dataLen
        else .ok (elemsToPrograms vuzopediaBase "Высшее" fgos mg mgname dataLen elems 0)

/-- Scraper `parse_vuzopedia_colleges`: identical to the vuzi parser but for the
colleges listing and the `СПО` level. -/
def parse_vuzopedia_colleges (env : Env) (fgos mg mgname : String) (dataLen : Nat) :
    Except Exc (List Rec) :=
  match env.vuzBase with
  | .error _ => parse_alternative_source env fgos mg mgname "СПО" dataLen
  | .ok status =>
    if status ≠ 200 then parse_alternative_source env fgos mg mgname "СПО" dataLen
    else
      match env.collSearch fgos with
      | .error _ => parse_alternative_source env fgos mg mgname "СПО" dataLen
      | .ok (st, elems) =>
        if st ≠ 200 then parse_alternative_source env fgos mg mgname "СПО" dataLen
        else .ok (elemsToPrograms vuzopediaBase "СПО" fgos mg mgname dataLen elems 0)

/-- Scraper `parse_postupi_online`. -/
def parse_postupi_online (env : Env) (fgos mg mgname lvl : String) (dataLen : Nat) :
    Except Exc (List Rec) :=
  match env.postupiBase with
  | .error _ => parse_alternative_source env fgos mg mgname lvl dataLen
  | .ok status =>
    if status ≠ 200 then parse_alternative_source env fgos mg mgname lvl dataLen
    else
      match env.postupiSearch lvl fgos with
      | .error _ => parse_alternative_source env fgos mg mgname lvl dataLen
      | .ok (st, elems) =>
        if st ≠ 200 then parse_alternative_source env fgos mg mgname lvl dataLen
        else .ok (elemsToPrograms postupiBaseUrl lvl fgos mg mgname dataLen elems 0)

/-- One macro-group of the target list. -/
structure Macrogroup where
  name : String
  vo_codes : List String
  spo_codes : List String

abbrev TargetList := List (String × Macrogroup)

/-- The inner code loop of the first pass of `parse_all_sources`
(`for code in vo_codes: ... if len(self.data) >= min_programs: break`). -/
def vuziLoop (env : Env) (mgid mgname : String) (minP : Nat) :
    List String → List Rec → Except Exc (List Rec)
  | [], acc => .ok acc
  | code :: codes, acc =>
    match parse_vuzopedia_vuzi env code mgid mgname acc.length with
    | .error e => .error e
    | .ok programs =>
      let acc := acc ++ programs
      if minP ≤ acc.length then .ok acc else vuziLoop env mgid mgname minP codes acc

/-- The inner SPO code loop of the first pass. -/
def collLoop (env : Env) (mgid mgname : String) (minP : Nat) :
    List String → List Rec → Except Exc (List Rec)
  | [], acc => .ok acc
  | code :: codes, acc =>
    match parse_vuzopedia_colleges env code mgid mgname acc.length with
    | .error e => .error e
    | .ok programs =>
      let acc := acc ++ programs
      if minP ≤ acc.length then .ok acc else collLoop env mgid mgname minP codes acc

/-- The first (vuzopedia) pass over the target list. -/
def vuzPass (env : Env) (minP : Nat) : TargetList → List Rec → Except Exc (List Rec)
  | [], acc => .ok acc
  | (mgid, mg) :: rest, acc =>
    match vuziLoop env mgid mg.name minP mg.vo_codes acc with
    | .error e => .error e
    | .ok acc =>
      if minP ≤ acc.length then .ok acc
      else
        match collLoop env mgid mg.name minP mg.spo_codes acc with
        | .error e => .error e
        | .ok acc =>
          if minP ≤ acc.length then .ok acc else vuzPass env minP rest acc

/-- The inner code loop of the second (postupi.online) pass. -/
def postupiLoop (env : Env) (mgid mgname lvl : String) (minP : Nat) :
    List String → List Rec → Except Exc (List Rec)
  | [], acc => .ok acc
  | code :: codes, acc =>
    match parse_postupi_online env code mgid mgname lvl acc.length with
    | .error e => .error e
    | .ok programs =>
      let acc := acc ++ programs
      if minP ≤ acc.length then .ok acc else postupiLoop env mgid mgname lvl minP codes acc

/-- The second (postupi.online) pass over the target list. -/
def postupiPass (env : Env) (minP : Nat) : TargetList → List Rec → Except Exc (List Rec)
  | [], acc => .ok acc
  | (mgid, mg) :: rest, acc =>
    match postupiLoop env mgid mg.name "Высшее" minP mg.vo_codes acc with
    | .error e => .error e
    | .ok acc =>
      if minP ≤ acc.length then .ok acc
      else
        match postupiLoop env mgid mg.name "СПО" minP mg.spo_codes acc with
        | .error e => .error e
        | .ok acc =>
          if minP ≤ acc.length then .ok acc else postupiPass env minP rest acc

/-- The dedup key `{fgos_code, institution_name, program_name}`. -/
def triple (r : Rec) : String × String × String :=
  (r.fgos_code, r.institution_name, r.program_name)

/-- Dedup as `DataFrame.drop_duplicates(subset=..., keep='first')`: scan left to
right, keeping a record only when its key has not been seen yet. -/
def dedupGo (seen : List (String × String × String)) : List Rec → List Rec
  | [] => []
  | r :: rs =>
    if triple r ∈ seen then dedupGo seen rs
    else r :: dedupGo (triple r :: seen) rs

def dedupTriple (l : List Rec) : List Rec := dedupGo [] l

/-- Modelled from the spec: keep the first occurrence of each triple and
drop every later record with the same triple, even if its other fields
differ. -/
def dedupSpec : List Rec → List Rec
  | [] => []
  | r :: rs => r :: dedupSpec (rs.filter fun r' => triple r' ≠ triple r)
termination_by l => l.length
decreasing_by
  simp only [List.length_cons]
  exact Nat.lt_succ_of_le (List.length_filter_le _ _)

/-- Reassignment `df['id'] = range(1, len(df) + 1)`. -/
def reassignIds (n : Nat) : List Rec → List Rec
  | [] => []
  | r :: rs => { r with id := n } :: reassignIds (n + 1) rs

/-- Aggregation `parse_all_sources`: the vuzopedia pass, then — only when the total is
still below the minimum — the postupi.online pass, then deduplication and
id reassignment (on a non-empty frame). -/
def parse_all_sources (env : Env) (tl : TargetList) (minP : Nat) : Except Exc (List Rec) :=
  match vuzPass env minP tl [] with
  | .error e => .error e
  | .ok d =>
    match (if d.length < minP then postupiPass env minP tl d else .ok d) with
    | .error e => .error e
    | .ok d2 => if d2 = [] then .ok [] else .ok (reassignIds 1 (dedupTriple d2))

/-- The aggregate record list of `self.data` just before deduplication. -/
def collectedData (env : Env) (tl : TargetList) (minP : Nat) : List Rec :=
  match vuzPass env minP tl [] with
  | .error _ => []
  | .ok d =>
    match (if d.length < minP then postupiPass env minP tl d else .ok d) with
    | .error _ => []
    | .ok d2 => d2

/-- The data collected by the first (vuzopedia) pass alone. -/
def firstPassData (env : Env) (tl : TargetList) (minP : Nat) : List Rec :=
  match vuzPass env minP tl [] with
  | .error _ => []
  | .ok d => d

/-! Post-processing and the overall run. -/

/-- A processed record (`process_data` turns the budget-seat count into a
display string). -/
structure ProcRec where
  id : Nat
  macrogroup_id : String
  macrogroup_name : String
  education_level : String
  fgos_code : String
  program_name : String
  institution_name : String
  region : String
  budget_seats : String
  url : String
deriving DecidableEq

/-- Replace as `str.replace(pat, rep)` (all occurrences, left to right; the patterns
used here are non-empty). -/
def replaceSub (pat rep : List Char) : List Char → List Char
  | [] => []
  | c :: rest =>
    if pat ≠ [] ∧ isPre pat (c :: rest) then
      rep ++ replaceSub pat rep (rest.drop (pat.length - 1))
    else c :: replaceSub pat rep rest
termination_by l => l.length
decreasing_by
  · simp only [List.length_cons, List.length_drop]
    omega
  · simp

/-- Helper `standardize_region` of `process_data`. -/
def standardize_region (region : String) : String :=
  pyStripS (String.mk (replaceSub "Российская Федерация, ".data [] (replaceSub "Россия, ".data [] region.data)))

/-- Cleanup `process_data`: budget seats become a display string (`'Нет'` for 0)
and regions are standardized. -/
def process_data (l : List Rec) : List ProcRec :=
  l.map fun r =>
    { id := r.id, macrogroup_id := r.macrogroup_id, macrogroup_name := r.macrogroup_name,
      education_level := r.education_level, fgos_code := r.fgos_code,
      program_name := r.program_name, institution_name := r.institution_name,
      region := standardize_region r.region,
      budget_seats := if r.budget_seats ≠ 0 then toString r.budget_seats else "Нет",
      url := r.url }

/-- Output step `save_results`: both the CSV write and the report write sit inside a
`try/except` that logs and returns, so a failing write never escapes. -/
def save_results (env : Env) (_df : List ProcRec) : Except Exc Unit :=
  match env.writeResult with
  | .error _ => .ok ()
  | .ok _ => .ok ()

/-- Driver `run`: collect, process, save; the surrounding `try/except` logs and
re-raises, so it is the identity on the outcome. -/
def run (env : Env) (tl : TargetList) (minP : Nat) : Except Exc (List ProcRec) :=
  match
    (match parse_all_sources env tl minP with
     | .error e => .error e
     | .ok df =>
       let df := process_data df
       match save_results env df with
       | .error e => .error e
       | .ok _ => .ok df : Except Exc (List ProcRec)) with
  | .error e => .error e
  | .ok df => .ok df

/-! Observations used to state the fallback claims -/

/-- Did the vuzopedia fetch for this code fail (base request raised or
non-200, or search request raised or non-200)?  Exactly the four branches
on which `parse_vuzopedia_vuzi` falls back. -/
def vuzFetchBad (env : Env) (fgos : String) : Bool :=
  match env.vuzBase with
  | .error _ => true
  | .ok status =>
    if status ≠ 200 then true
    else
      match env.vuzSearch fgos with
      | .error _ => true
      | .ok (st, _) => st ≠ 200

/-- Did the postupi.online fetch for this code and level fail? -/
def postupiFetchBad (env : Env) (lvl fgos : String) : Bool :=
  match env.postupiBase with
  | .error _ => true
  | .ok status =>
    if status ≠ 200 then true
    else
      match env.postupiSearch lvl fgos with
      | .error _ => true
      | .ok (st, _) => st ≠ 200

/-- The usable records the vuzopedia (higher-education) tier yields on a
successful fetch, and `[]` on a failed one. -/
def vuzUsable (env : Env) (fgos mg mgname : String) (dataLen : Nat) : List Rec :=
  match env.vuzBase with
  | .error _ => []
  | .ok status =>
    if status ≠ 200 then []
    else
      match env.vuzSearch fgos with
      | .error _ => []
      | .ok (st, elems) =>
        if st ≠ 200 then []
        else elemsToPrograms vuzopediaBase "Высшее" fgos mg mgname dataLen elems 0

/-- The usable records the postupi.online tier yields on a successful
fetch, and `[]` on a failed one. -/
def postupiUsable (env : Env) (lvl fgos mg mgname : String) (dataLen : Nat) : List Rec :=
  match env.postupiBase with
  | .error _ => []
  | .ok status =>
    if status ≠ 200 then []
    else
      match env.postupiSearch lvl fgos with
      | .error _ => []
      | .ok (st, elems) =>
        if st ≠ 200 then []
        else elemsToPrograms postupiBaseUrl lvl fgos mg mgname dataLen elems 0

/-- Modelled from the spec: the per-code tiered retrieval policy exactly as
claim C3 states it — primary scraper source, then secondary scraper
source, then synthetic data, advancing a tier only when the prior tier
yields no usable records and returning the first tier's non-empty
records. -/
def claimTieredRetrieval (env : Env) (fgos mg mgname : String) (dataLen : Nat) : List Rec :=
  let v := vuzUsable env fgos mg mgname dataLen
  if v ≠ [] then v
  else
    let p := postupiUsable env "Высшее" fgos mg mgname dataLen
    if p ≠ [] then p
    else altPrograms env fgos mg mgname "Высшее" dataLen

/-- Two environments that agree on everything the vuzopedia pass and the
synthetic fallback consult (only the secondary source may differ). -/
def agreeExceptPostupi (env env' : Env) : Prop :=
  env.vuzBase = env'.vuzBase ∧ env.vuzSearch = env'.vuzSearch ∧
  env.collSearch = env'.collSearch ∧ env.rand = env'.rand

/-! Concrete instances used by counterexamples and witnesses -/

/-- A usable result element of the secondary source: a government
institution with budget seats. -/
def elemP : RawElem :=
  { program_name := some "Информатика и вычислительная техника",
    institution_name := some "Российский государственный технологический университет",
    budget_text := some "25 бюджетных мест", href := none }

/-- An environment where vuzopedia is down but postupi.online would answer
with one usable record. -/
def envC3 : Env :=
  { vuzBase := .error "ConnectionError",
    postupiBase := .ok 200,
    vuzSearch := fun _ => .error "ConnectionError",
    collSearch := fun _ => .error "ConnectionError",
    postupiSearch := fun _ _ => .ok (200, [elemP]),
    rand := fun _ _ => 0,
    writeResult := .ok () }

/-- Environment `envC3` with the secondary source unplugged. -/
def envC3' : Env := { envC3 with postupiSearch := fun _ _ => .error "ConnectionError" }

/-- An environment where every fetch succeeds but yields no elements. -/
def envOkEmpty : Env :=
  { vuzBase := .ok 200,
    postupiBase := .ok 200,
    vuzSearch := fun _ => .ok (200, []),
    collSearch := fun _ => .ok (200, []),
    postupiSearch := fun _ _ => .ok (200, []),
    rand := fun _ _ => 0,
    writeResult := .ok () }

/-- A one-macrogroup, one-code target list. -/
def tlC3 : TargetList := [("1", { name := "ИТ", vo_codes := ["09.03.01"], spo_codes := [] })]

/-! Further claim-side definitions -/

/-- The list value of an always-successful computation. -/
def okList : Except Exc (List Rec) → List Rec
  | .ok l => l
  | .error _ => []

/-- The tails of the five escape entities `html.escape` can emit. -/
def entityTails : List (List Char) :=
  ["amp;".data, "lt;".data, "gt;".data, "quot;".data, "#x27;".data]

/-- No reserved markup character appears unescaped: the characters `<`,
`>`, `"`, `'` never occur, and every `&` starts one of the five escape
entities. -/
def escapedOk : List Char → Bool
  | [] => true
  | c :: rest =>
    if c = '<' || c = '>' || c = '"' || c = '\'' then false
    else if c = '&' then (entityTails.any fun t => isPre t rest) && escapedOk rest
    else escapedOk rest

/-- Every string field of an emitted record (including the tag list). -/
def stringFieldsOf (p : ProgramObj) : List String :=
  [p.title, p.fgos_code, p.fgos_name, p.institution, p.district, p.level,
   p.level_readable, p.base, p.duration, p.category, p.salary, p.desc,
   p.color, p.quiz_cat, p.url] ++ p.tags

/-- Field `f` of the row is present and non-blank after trimming (the
spec's acceptance condition). -/
def fieldPresentNonblank (row : Row) (f : String) : Bool :=
  match rowFind row f with
  | none => false
  | some v => !(pyStrip v.data).isEmpty

/-- A row passes required-field validation. -/
def rowAccepted (row : Row) : Bool :=
  fieldPresentNonblank row "program_name" && fieldPresentNonblank row "url"

/-- The record filters claimed for every source collector: a positive
budget-seat count and a government-keyword institution name. -/
def recGood (r : Rec) : Bool :=
  decide (0 < r.budget_seats) && is_government_institution r.institution_name

/-- The process state visible to `generate_program_card` if it consulted
any: wall clock, RNG state, file system.  The function's body calls only
the pure `html.escape`, `re.findall`, `int` and `json.dumps`, so a call
reads none of this and leaves all of it unchanged. -/
structure World where
  clock : Nat
  rngState : Nat
  fileSystem : List (String × String)
deriving DecidableEq

/-- One call of the normalizer as a state transformer over the process
world. -/
def cardCall (w : World) (row : Row) : String × World :=
  (generate_program_card_js row, w)

/-- The end-to-end scenario row of the spec. -/
def rowPhys : Row :=
  [("program_name", "Физика"), ("url", "http://x.ru"), ("budget_seats", "15 мест")]

def rowAffirm : Row :=
  [("program_name", "Физика"), ("url", "http://x.ru"),
   ("budget_seats", "Есть бюджетные места")]

def rowNoSeats : Row :=
  [("program_name", "Физика"), ("url", "http://x.ru"), ("budget_seats", "")]

/-- A row with only the required fields present. -/
def rowOnlyName : Row := [("program_name", "Физика"), ("url", "http://x.ru")]

/-- A single-row table whose one row lacks `url`. -/
def rowsBad : List Row := [[("program_name", "Физика")]]

/-! Theorems -/

/-! C1: budget-seat extraction -/

/-- C1: For every `budget_seats` input string, the seat count computed
by `generate_program_card` equals the integer value of the first run of
decimal digits of the escaped, trimmed string when one exists, else 1 when
the affirmative phrase occurs, else 0; in particular the empty string
yields 0 and `15 мест` yields 15. -/
theorem C1_budget_seat_extraction : ∀ (row : Row),
    ((generate_program_card row).places =
      match firstRun (hEsc (pyStripS (rowGet row "budget_seats"))).data with
      | some ds => digitsToNat ds
      | none =>
        if containsSub "Есть бюджетные места".data
            (hEsc (pyStripS (rowGet row "budget_seats"))).data then 1 else 0) ∧
    (generate_program_card rowPhys).places = 15 ∧
    (generate_program_card rowAffirm).places = 1 ∧
    (generate_program_card rowNoSeats).places = 0 := by
  intro row
  refine ⟨?_, by decide, by decide, by decide⟩
  show (if !(hEsc (pyStripS (rowGet row "budget_seats"))).data.isEmpty then _ else 0) = _
  cases hb : (hEsc (pyStripS (rowGet row "budget_seats"))).data with
  | nil => simp [hb, firstRun, containsSub]
  | cons c cs => simp [hb]

/-! C10: education-level classification -/

/-- C10: A record is classified `SPO`/`Колледж` exactly when the
escaped, trimmed `education_level` field contains the substring `СПО`; in
every other case — including a missing or empty field — it is classified
`VO`/`Бакалавриат`. -/
theorem C10_level_classification : ∀ (row : Row),
    ((generate_program_card row).level, (generate_program_card row).level_readable) =
      (if containsSub "СПО".data (hEsc (pyStripS (rowGet row "education_level"))).data
       then ("SPO", "Колледж") else ("VO", "Бакалавриат")) ∧
    (generate_program_card rowOnlyName).level = "VO" ∧
    (generate_program_card rowOnlyName).level_readable = "Бакалавриат" := by
  intro row
  refine ⟨?_, by decide, by decide⟩
  by_cases h : containsSub "СПО".data (hEsc (pyStripS (rowGet row "education_level"))).data
  · simp [generate_program_card, h]
  · simp [generate_program_card, h]

/-! C9: the normalizer is a pure function of its row -/

/-- C9: `generate_program_card` is deterministic and side-effect
free: a call made in any two world states yields character-for-character
identical output, a repeated call yields the same output again, and the
world is left unchanged. -/
theorem C9_normalizer_pure : ∀ (w w' : World) (row : Row),
    (cardCall w row).1 = (cardCall w' row).1 ∧
    (cardCall ((cardCall w row).2) row).1 = (cardCall w row).1 ∧
    (cardCall w row).2 = w :=
  fun _ _ _ => ⟨rfl, rfl, rfl⟩

/-! C7: HTML escaping -/

theorem escapedOk_amp (l : List Char) : escapedOk ("&amp;".data ++ l) = escapedOk l := rfl

theorem escapedOk_lt (l : List Char) : escapedOk ("&lt;".data ++ l) = escapedOk l := rfl

theorem escapedOk_gt (l : List Char) : escapedOk ("&gt;".data ++ l) = escapedOk l := rfl

theorem escapedOk_quot (l : List Char) : escapedOk ("&quot;".data ++ l) = escapedOk l := rfl

theorem escapedOk_apos (l : List Char) : escapedOk ("&#x27;".data ++ l) = escapedOk l := rfl

theorem escapedOk_cons_safe {c : Char} (l : List Char)
    (h1 : c ≠ '<') (h2 : c ≠ '>') (h3 : c ≠ '"') (h4 : c ≠ '\'') (h5 : c ≠ '&') :
    escapedOk (c :: l) = escapedOk l := by
  simp [escapedOk, h1, h2, h3, h4, h5]

/-- `html.escape` leaves no markup character unescaped. -/
theorem escapedOk_htmlEscape : ∀ (l : List Char), escapedOk (htmlEscape l) = true := by
  intro l
  induction l with
  | nil => rfl
  | cons c cs ih =>
    show escapedOk (escChar c ++ htmlEscape cs) = true
    by_cases h5 : c = '&'
    · subst h5; rw [show escChar '&' = "&amp;".data from rfl, escapedOk_amp]; exact ih
    by_cases h1 : c = '<'
    · subst h1; rw [show escChar '<' = "&lt;".data from rfl, escapedOk_lt]; exact ih
    by_cases h2 : c = '>'
    · subst h2; rw [show escChar '>' = "&gt;".data from rfl, escapedOk_gt]; exact ih
    by_cases h3 : c = '"'
    · subst h3; rw [show escChar '"' = "&quot;".data from rfl, escapedOk_quot]; exact ih
    by_cases h4 : c = '\''
    · subst h4; rw [show escChar '\'' = "&#x27;".data from rfl, escapedOk_apos]; exact ih
    · rw [show escChar c = [c] from by simp [escChar, h1, h2, h3, h4, h5],
        List.singleton_append, escapedOk_cons_safe (htmlEscape cs) h1 h2 h3 h4 h5]
      exact ih

theorem escapedOk_hEsc (s : String) : escapedOk (hEsc s).data = true :=
  escapedOk_htmlEscape s.data

theorem escapedOk_ite (c : Prop) [Decidable c] (a b : String)
    (ha : escapedOk a.data = true) (hb : escapedOk b.data = true) :
    escapedOk (if c then a else b).data = true := by
  split <;> assumption

/-- C7: For every input row, no reserved HTML markup character appears
unescaped in any string field of the record emitted by
`generate_program_card`. -/
theorem C7_fields_escaped : ∀ (row : Row),
    (stringFieldsOf (generate_program_card row)).all (fun s => escapedOk s.data) = true := by
  intro row
  simp only [stringFieldsOf, generate_program_card, List.all_append, List.all_cons,
    List.all_nil, Bool.and_eq_true, Bool.and_true]
  refine ⟨⟨?_, ?_, ?_, ?_, ?_, ?_, ?_, ?_, ?_, ?_, ?_, ?_, ?_, ?_, ?_⟩, ?_⟩
  · exact escapedOk_ite _ _ _ (escapedOk_hEsc _) (by decide)
  · exact escapedOk_ite _ _ _ (escapedOk_hEsc _) (by decide)
  · exact escapedOk_hEsc _
  · exact escapedOk_ite _ _ _ (escapedOk_hEsc _) (by decide)
  · exact escapedOk_ite _ _ _ (escapedOk_hEsc _) (by decide)
  · exact escapedOk_ite _ _ _ (by decide) (by decide)
  · exact escapedOk_ite _ _ _ (by decide) (by decide)
  · decide
  · decide
  · exact escapedOk_ite _ _ _ (escapedOk_hEsc _) (by decide)
  · decide
  · exact escapedOk_ite _ _ _ (escapedOk_hEsc _) (by decide)
  · decide
  · decide
  · exact escapedOk_hEsc _
  · decide

/-! C2 and C8: required-field validation and the empty-output path -/

/-- The validation test `main` performs on a row succeeds exactly when both
required fields are present and non-blank after trimming. -/
theorem missing_eq_nil_iff (row : Row) :
    (required_fields.filter fun f =>
      match rowFind row f with
      | none => true
      | some v => (pyStrip v.data).isEmpty) = [] ↔ rowAccepted row = true := by
  simp only [required_fields, rowAccepted, fieldPresentNonblank, List.filter_cons,
    List.filter_nil]
  cases hpn : rowFind row "program_name" <;> cases hu : rowFind row "url"
  · simp [hpn, hu]
  · rename_i v
    by_cases h : pyStrip v.data = [] <;> simp [hpn, hu, h]
  · rename_i v
    by_cases h : pyStrip v.data = [] <;> simp [hpn, hu, h]
  · rename_i v w
    by_cases h1 : pyStrip v.data = [] <;> by_cases h2 : pyStrip w.data = [] <;>
      simp [hpn, hu, h1, h2]

/-- The record list and the skipped-row list produced by `main`'s loop. -/
theorem mainLoop_spec : ∀ (rows : List Row),
    (mainLoop rows).1 = (rows.filter rowAccepted).map generate_program_card_js ∧
    (mainLoop rows).2 = rows.filter (fun row => !rowAccepted row) := by
  intro rows
  induction rows with
  | nil => exact ⟨rfl, rfl⟩
  | cons row rest ih =>
    obtain ⟨ih1, ih2⟩ := ih
    by_cases h : rowAccepted row = true
    · have hm := (missing_eq_nil_iff row).mpr h
      simp [mainLoop, hm, List.filter_cons, h, ih1, ih2]
    · have hm : ¬((required_fields.filter fun f =>
          match rowFind row f with
          | none => true
          | some v => (pyStrip v.data).isEmpty) = []) :=
        fun he => h ((missing_eq_nil_iff row).mp he)
      simp [mainLoop, hm, List.filter_cons, h, ih1, ih2]

/-- C2: The transform pipeline skips a row exactly when `program_name`
or `url` is absent or blank after trimming; every other row yields exactly
one record, with missing optional fields replaced by default placeholders
(never causing rejection). -/
theorem C2_row_validation : ∀ (rows : List Row) (row : Row),
    (mainLoop rows).1 = (rows.filter rowAccepted).map generate_program_card_js ∧
    (mainLoop rows).2 = rows.filter (fun r => !rowAccepted r) ∧
    ((required_fields.filter fun f =>
        match rowFind row f with
        | none => true
        | some v => (pyStrip v.data).isEmpty) = [] ↔ rowAccepted row = true) ∧
    (generate_program_card rowOnlyName).fgos_code = "—" ∧
    (generate_program_card rowOnlyName).institution = "Не указан" ∧
    (generate_program_card rowOnlyName).district = "РФ" := by
  intro rows row
  exact ⟨(mainLoop_spec rows).1, (mainLoop_spec rows).2, missing_eq_nil_iff row,
    by decide, by decide, by decide⟩

/-- C8: When no input row passes required-field validation (including
an entirely empty table), `main` writes no output file and ends with an
informational message rather than an error exit. -/
theorem C8_no_output_without_valid_rows : ∀ (rows : List Row) (today : String),
    rows.filter rowAccepted = [] →
    writesFile (generate_main (some rows) today) = false ∧
    isErrorExit (generate_main (some rows) today) = false := by
  intro rows today h
  unfold generate_main
  by_cases hrows : rows.isEmpty
  · simp [hrows, writesFile, isErrorExit]
  · have h1 : (mainLoop rows).1 = [] := by
      rw [(mainLoop_spec rows).1, h]; rfl
    simp [hrows, h1, writesFile, isErrorExit]

/-- Witness for C8 at a concrete one-row table lacking `url`. -/
theorem C8_no_output_without_valid_rows_witness :
    writesFile (generate_main (some rowsBad) "01.01.2026") = false ∧
    isErrorExit (generate_main (some rowsBad) "01.01.2026") = false :=
  C8_no_output_without_valid_rows rowsBad "01.01.2026" (by decide)

/-! C5: failures are caught, the run always returns a result -/

theorem parse_alternative_source_eq (env : Env) (fgos mg mgname lvl : String) (n : Nat) :
    parse_alternative_source env fgos mg mgname lvl n =
      .ok (altPrograms env fgos mg mgname lvl n) := rfl

theorem vuzi_ok (env : Env) (fgos mg mgname : String) (n : Nat) :
    ∃ l, parse_vuzopedia_vuzi env fgos mg mgname n = .ok l := by
  cases hb : env.vuzBase with
  | error e => simp only [parse_vuzopedia_vuzi, hb]; exact ⟨_, rfl⟩
  | ok status =>
    by_cases h : status ≠ 200
    · simp only [parse_vuzopedia_vuzi, hb, if_pos h]; exact ⟨_, rfl⟩
    · cases hs : env.vuzSearch fgos with
      | error e => simp only [parse_vuzopedia_vuzi, hb, if_neg h, hs]; exact ⟨_, rfl⟩
      | ok p =>
        obtain ⟨st, elems⟩ := p
        by_cases h2 : st ≠ 200
        · simp only [parse_vuzopedia_vuzi, hb, if_neg h, hs, if_pos h2]; exact ⟨_, rfl⟩
        · simp only [parse_vuzopedia_vuzi, hb, if_neg h, hs, if_neg h2]; exact ⟨_, rfl⟩

theorem coll_ok (env : Env) (fgos mg mgname : String) (n : Nat) :
    ∃ l, parse_vuzopedia_colleges env fgos mg mgname n = .ok l := by
  cases hb : env.vuzBase with
  | error e => simp only [parse_vuzopedia_colleges, hb]; exact ⟨_, rfl⟩
  | ok status =>
    by_cases h : status ≠ 200
    · simp only [parse_vuzopedia_colleges, hb, if_pos h]; exact ⟨_, rfl⟩
    · cases hs : env.collSearch fgos with
      | error e => simp only [parse_vuzopedia_colleges, hb, if_neg h, hs]; exact ⟨_, rfl⟩
      | ok p =>
        obtain ⟨st, elems⟩ := p
        by_cases h2 : st ≠ 200
        · simp only [parse_vuzopedia_colleges, hb, if_neg h, hs, if_pos h2]; exact ⟨_, rfl⟩
        · simp only [parse_vuzopedia_colleges, hb, if_neg h, hs, if_neg h2]; exact ⟨_, rfl⟩

theorem postupi_ok (env : Env) (fgos mg mgname lvl : String) (n : Nat) :
    ∃ l, parse_postupi_online env fgos mg mgname lvl n = .ok l := by
  cases hb : env.postupiBase with
  | error e => simp only [parse_postupi_online, hb]; exact ⟨_, rfl⟩
  | ok status =>
    by_cases h : status ≠ 200
    · simp only [parse_postupi_online, hb, if_pos h]; exact ⟨_, rfl⟩
    · cases hs : env.postupiSearch lvl fgos with
      | error e => simp only [parse_postupi_online, hb, if_neg h, hs]; exact ⟨_, rfl⟩
      | ok p =>
        obtain ⟨st, elems⟩ := p
        by_cases h2 : st ≠ 200
        · simp only [parse_postupi_online, hb, if_neg h, hs, if_pos h2]; exact ⟨_, rfl⟩
        · simp only [parse_postupi_online, hb, if_neg h, hs, if_neg h2]; exact ⟨_, rfl⟩

theorem vuziLoop_ok (env : Env) (mgid mgname : String) (minP : Nat) :
    ∀ (codes : List String) (acc : List Rec),
      ∃ l, vuziLoop env mgid mgname minP codes acc = .ok l := by
  intro codes
  induction codes with
  | nil => intro acc; exact ⟨acc, rfl⟩
  | cons c cs ih =>
    intro acc
    obtain ⟨ps, hps⟩ := vuzi_ok env c mgid mgname acc.length
    simp only [vuziLoop, hps]
    by_cases h : minP ≤ (acc ++ ps).length
    · rw [if_pos h]; exact ⟨_, rfl⟩
    · rw [if_neg h]; exact ih _

theorem collLoop_ok (env : Env) (mgid mgname : String) (minP : Nat) :
    ∀ (codes : List String) (acc : List Rec),
      ∃ l, collLoop env mgid mgname minP codes acc = .ok l := by
  intro codes
  induction codes with
  | nil => intro acc; exact ⟨acc, rfl⟩
  | cons c cs ih =>
    intro acc
    obtain ⟨ps, hps⟩ := coll_ok env c mgid mgname acc.length
    simp only [collLoop, hps]
    by_cases h : minP ≤ (acc ++ ps).length
    · rw [if_pos h]; exact ⟨_, rfl⟩
    · rw [if_neg h]; exact ih _

theorem postupiLoop_ok (env : Env) (mgid mgname lvl : String) (minP : Nat) :
    ∀ (codes : List String) (acc : List Rec),
      ∃ l, postupiLoop env mgid mgname lvl minP codes acc = .ok l := by
  intro codes
  induction codes with
  | nil => intro acc; exact ⟨acc, rfl⟩
  | cons c cs ih =>
    intro acc
    obtain ⟨ps, hps⟩ := postupi_ok env c mgid mgname lvl acc.length
    simp only [postupiLoop, hps]
    by_cases h : minP ≤ (acc ++ ps).length
    · rw [if_pos h]; exact ⟨_, rfl⟩
    · rw [if_neg h]; exact ih _

theorem vuzPass_ok (env : Env) (minP : Nat) :
    ∀ (tl : TargetList) (acc : List Rec), ∃ l, vuzPass env minP tl acc = .ok l := by
  intro tl
  induction tl with
  | nil => intro acc; exact ⟨acc, rfl⟩
  | cons mgp rest ih =>
    intro acc
    obtain ⟨mgid, mg⟩ := mgp
    obtain ⟨d1, hd1⟩ := vuziLoop_ok env mgid mg.name minP mg.vo_codes acc
    simp only [vuzPass, hd1]
    by_cases h1 : minP ≤ d1.length
    · rw [if_pos h1]; exact ⟨_, rfl⟩
    · rw [if_neg h1]
      obtain ⟨d2, hd2⟩ := collLoop_ok env mgid mg.name minP mg.spo_codes d1
      simp only [hd2]
      by_cases h2 : minP ≤ d2.length
      · rw [if_pos h2]; exact ⟨_, rfl⟩
      · rw [if_neg h2]; exact ih _

theorem postupiPass_ok (env : Env) (minP : Nat) :
    ∀ (tl : TargetList) (acc : List Rec), ∃ l, postupiPass env minP tl acc = .ok l := by
  intro tl
  induction tl with
  | nil => intro acc; exact ⟨acc, rfl⟩
  | cons mgp rest ih =>
    intro acc
    obtain ⟨mgid, mg⟩ := mgp
    obtain ⟨d1, hd1⟩ := postupiLoop_ok env mgid mg.name "Высшее" minP mg.vo_codes acc
    simp only [postupiPass, hd1]
    by_cases h1 : minP ≤ d1.length
    · rw [if_pos h1]; exact ⟨_, rfl⟩
    · rw [if_neg h1]
      obtain ⟨d2, hd2⟩ := postupiLoop_ok env mgid mg.name "СПО" minP mg.spo_codes d1
      simp only [hd2]
      by_cases h2 : minP ≤ d2.length
      · rw [if_pos h2]; exact ⟨_, rfl⟩
      · rw [if_neg h2]; exact ih _

/-- `parse_all_sources` always succeeds, returning the deduplicated,
re-numbered aggregate data. -/
theorem parse_all_sources_eq (env : Env) (tl : TargetList) (minP : Nat) :
    parse_all_sources env tl minP =
      .ok (if collectedData env tl minP = [] then []
           else reassignIds 1 (dedupTriple (collectedData env tl minP))) := by
  unfold parse_all_sources collectedData
  obtain ⟨d, hd⟩ := vuzPass_ok env minP tl []
  simp only [hd]
  by_cases h : d.length < minP
  · rw [if_pos h]
    obtain ⟨d2, hd2⟩ := postupiPass_ok env minP tl d
    simp only [hd2]
    by_cases hz : d2 = [] <;> simp [hz]
  · rw [if_neg h]
    by_cases hz : d = [] <;> simp [hz]

theorem save_results_eq (env : Env) (df : List ProcRec) :
    save_results env df = .ok () := by
  unfold save_results
  cases env.writeResult <;> rfl

theorem run_ok (env : Env) (tl : TargetList) (minP : Nat) :
    ∃ df, run env tl minP = .ok df := by
  unfold run
  rw [parse_all_sources_eq env tl minP]
  simp only [save_results_eq]
  exact ⟨_, rfl⟩

/-- C5: Every network or parsing failure at a source is caught inside
the collector (each collector returns a result for every environment,
never an error), and the overall run always produces some output rather
than terminating with an error. -/
theorem C5_failures_never_propagate :
    ∀ (env : Env) (tl : TargetList) (minP : Nat) (fgos mg mgname lvl : String) (n : Nat),
    (∃ l, parse_vuzopedia_vuzi env fgos mg mgname n = .ok l) ∧
    (∃ l, parse_vuzopedia_colleges env fgos mg mgname n = .ok l) ∧
    (∃ l, parse_postupi_online env fgos mg mgname lvl n = .ok l) ∧
    (∃ l, parse_alternative_source env fgos mg mgname lvl n = .ok l) ∧
    (∃ d, parse_all_sources env tl minP = .ok d) ∧
    (∃ df, run env tl minP = .ok df) := by
  intro env tl minP fgos mg mgname lvl n
  exact ⟨vuzi_ok env fgos mg mgname n, coll_ok env fgos mg mgname n,
    postupi_ok env fgos mg mgname lvl n, ⟨_, rfl⟩,
    ⟨_, parse_all_sources_eq env tl minP⟩, run_ok env tl minP⟩

/-! C4: deduplication and id reassignment -/

/-- The seen-set scan of `drop_duplicates` agrees with the specification
"keep the first record of each triple, drop every later one". -/
theorem dedupGo_eq_spec : ∀ (l : List Rec) (seen : List (String × String × String)),
    dedupGo seen l = dedupSpec (l.filter fun r => !decide (triple r ∈ seen)) := by
  intro l
  induction l with
  | nil => intro seen; simp [dedupGo, dedupSpec]
  | cons r rs ih =>
    intro seen
    by_cases h : triple r ∈ seen
    · have hf : List.filter (fun r' => !decide (triple r' ∈ seen)) (r :: rs)
          = rs.filter (fun r' => !decide (triple r' ∈ seen)) := by
        simp [List.filter_cons, h]
      rw [hf]
      simp only [dedupGo, if_pos h]
      exact ih seen
    · have hf : List.filter (fun r' => !decide (triple r' ∈ seen)) (r :: rs)
          = r :: rs.filter (fun r' => !decide (triple r' ∈ seen)) := by
        simp [List.filter_cons, h]
      rw [hf]
      simp only [dedupSpec]
      simp only [dedupGo, if_neg h]
      congr 1
      rw [ih (triple r :: seen), List.filter_filter]
      congr 1
      apply List.filter_congr
      intro r' _
      by_cases h1 : triple r' = triple r <;> by_cases h2 : triple r' ∈ seen <;>
        simp [h1, h2]

theorem dedupTriple_eq_spec (l : List Rec) : dedupTriple l = dedupSpec l := by
  unfold dedupTriple
  rw [dedupGo_eq_spec]
  congr 1
  simp

theorem reassignIds_map_id : ∀ (l : List Rec) (n : Nat),
    (reassignIds n l).map Rec.id = List.range' n l.length := by
  intro l
  induction l with
  | nil => intro n; rfl
  | cons r rs ih =>
    intro n
    simp only [reassignIds, List.map_cons, ih (n + 1), List.length_cons]
    rfl

/-- C4: After collection, the aggregate list is deduplicated by the
triple `{fgos_code, institution_name, program_name}`, keeping the first
occurrence of each triple and dropping every later record with the same
triple, and the ids of the survivors are reassigned as 1, 2, …, n. -/
theorem C4_dedup_and_ids : ∀ (env : Env) (tl : TargetList) (minP : Nat) (l : List Rec),
    parse_all_sources env tl minP =
      .ok (reassignIds 1 (dedupSpec (collectedData env tl minP))) ∧
    dedupTriple l = dedupSpec l ∧
    (reassignIds 1 l).map Rec.id = List.range' 1 l.length := by
  intro env tl minP l
  refine ⟨?_, dedupTriple_eq_spec l, reassignIds_map_id l 1⟩
  rw [parse_all_sources_eq env tl minP, dedupTriple_eq_spec]
  by_cases h : collectedData env tl minP = []
  · simp [h, dedupSpec, reassignIds]
  · simp [h]

/-! C6: per-record filters of every source collector -/

/-- Every record kept by the element-processing loop has positive budget
seats and a government institution. -/
theorem elemsToPrograms_all_good (base lvl fgos mg mgname : String) (dataLen : Nat) :
    ∀ (elems : List RawElem) (k : Nat),
      (elemsToPrograms base lvl fgos mg mgname dataLen elems k).all recGood = true := by
  intro elems
  induction elems with
  | nil => intro k; rfl
  | cons e es ih =>
    intro k
    cases hpn : e.program_name with
    | none => simp only [elemsToPrograms, hpn]; exact ih k
    | some pn =>
      cases hinst : e.institution_name with
      | none => simp only [elemsToPrograms, hpn, hinst]; exact ih k
      | some inst =>
        simp only [elemsToPrograms, hpn, hinst]
        by_cases hg : is_government_institution inst = true
        · rw [if_pos hg]
          split
          · rename_i hs
            simp only [List.all_cons, Bool.and_eq_true]
            exact ⟨by simp [recGood, hs, hg], ih (k + 1)⟩
          · exact ih k
        · rw [if_neg hg]; exact ih k

/-- Every record built by the synthetic fallback has positive budget seats
and a government institution. -/
theorem altBuild_all_good (env : Env) (fgos mg mgname lvl : String) (dataLen : Nat) :
    ∀ (insts : List (String × String × String × String)) (k : Nat),
      (altBuild env fgos mg mgname lvl dataLen insts k).all recGood = true := by
  intro insts
  induction insts with
  | nil => intro k; rfl
  | cons t rest ih =>
    intro k
    obtain ⟨inst_name, inst_url, region, program_url⟩ := t
    simp only [altBuild]
    by_cases hg : is_government_institution inst_name = true
    · rw [if_pos hg]
      have hpos : 0 < 5 + env.rand fgos k % 46 :=
        Nat.lt_of_lt_of_le (by decide) (Nat.le_add_right 5 _)
      split
      · simp [recGood, hg, hpos]
      · simp only [List.all_cons, Bool.and_eq_true]
        exact ⟨by simp [recGood, hg, hpos], ih (k + 1)⟩
    · rw [if_neg hg]; exact ih k

theorem altPrograms_all_good (env : Env) (fgos mg mgname lvl : String) (dataLen : Nat) :
    (altPrograms env fgos mg mgname lvl dataLen).all recGood = true :=
  altBuild_all_good env fgos mg mgname lvl dataLen _ 0

/-- C6: Every record returned by any source collector — the two
vuzopedia scrapers, the postupi parser and the synthetic fallback — has a
strictly positive budget-seat count and a government-keyword institution
name. -/
theorem C6_collector_record_filters :
    ∀ (env : Env) (fgos mg mgname lvl : String) (n : Nat),
    (okList (parse_vuzopedia_vuzi env fgos mg mgname n)).all recGood = true ∧
    (okList (parse_vuzopedia_colleges env fgos mg mgname n)).all recGood = true ∧
    (okList (parse_postupi_online env fgos mg mgname lvl n)).all recGood = true ∧
    (okList (parse_alternative_source env fgos mg mgname lvl n)).all recGood = true := by
  intro env fgos mg mgname lvl n
  refine ⟨?_, ?_, ?_, altPrograms_all_good env fgos mg mgname lvl n⟩
  · cases hb : env.vuzBase with
    | error e =>
      simp only [parse_vuzopedia_vuzi, hb]
      exact altPrograms_all_good env fgos mg mgname "Высшее" n
    | ok status =>
      by_cases h : status ≠ 200
      · simp only [parse_vuzopedia_vuzi, hb, if_pos h]
        exact altPrograms_all_good env fgos mg mgname "Высшее" n
      · cases hs : env.vuzSearch fgos with
        | error e =>
          simp only [parse_vuzopedia_vuzi, hb, if_neg h, hs]
          exact altPrograms_all_good env fgos mg mgname "Высшее" n
        | ok p =>
          obtain ⟨st, elems⟩ := p
          by_cases h2 : st ≠ 200
          · simp only [parse_vuzopedia_vuzi, hb, if_neg h, hs, if_pos h2]
            exact altPrograms_all_good env fgos mg mgname "Высшее" n
          · simp only [parse_vuzopedia_vuzi, hb, if_neg h, hs, if_neg h2]
            exact elemsToPrograms_all_good vuzopediaBase "Высшее" fgos mg mgname n elems 0
  · cases hb : env.vuzBase with
    | error e =>
      simp only [parse_vuzopedia_colleges, hb]
      exact altPrograms_all_good env fgos mg mgname "СПО" n
    | ok status =>
      by_cases h : status ≠ 200
      · simp only [parse_vuzopedia_colleges, hb, if_pos h]
        exact altPrograms_all_good env fgos mg mgname "СПО" n
      · cases hs : env.collSearch fgos with
        | error e =>
          simp only [parse_vuzopedia_colleges, hb, if_neg h, hs]
          exact altPrograms_all_good env fgos mg mgname "СПО" n
        | ok p =>
          obtain ⟨st, elems⟩ := p
          by_cases h2 : st ≠ 200
          · simp only [parse_vuzopedia_colleges, hb, if_neg h, hs, if_pos h2]
            exact altPrograms_all_good env fgos mg mgname "СПО" n
          · simp only [parse_vuzopedia_colleges, hb, if_neg h, hs, if_neg h2]
            exact elemsToPrograms_all_good vuzopediaBase "СПО" fgos mg mgname n elems 0
  · cases hb : env.postupiBase with
    | error e =>
      simp only [parse_postupi_online, hb]
      exact altPrograms_all_good env fgos mg mgname lvl n
    | ok status =>
      by_cases h : status ≠ 200
      · simp only [parse_postupi_online, hb, if_pos h]
        exact altPrograms_all_good env fgos mg mgname lvl n
      · cases hs : env.postupiSearch lvl fgos with
        | error e =>
          simp only [parse_postupi_online, hb, if_neg h, hs]
          exact altPrograms_all_good env fgos mg mgname lvl n
        | ok p =>
          obtain ⟨st, elems⟩ := p
          by_cases h2 : st ≠ 200
          · simp only [parse_postupi_online, hb, if_neg h, hs, if_pos h2]
            exact altPrograms_all_good env fgos mg mgname lvl n
          · simp only [parse_postupi_online, hb, if_neg h, hs, if_neg h2]
            exact elemsToPrograms_all_good postupiBaseUrl lvl fgos mg mgname n elems 0

/-! C3: tiered fallback -/

theorem altBuild_congr {env env' : Env} (hr : env.rand = env'.rand)
    (fgos mg mgname lvl : String) (n : Nat) :
    ∀ (insts : List (String × String × String × String)) (k : Nat),
      altBuild env fgos mg mgname lvl n insts k =
        altBuild env' fgos mg mgname lvl n insts k := by
  intro insts
  induction insts with
  | nil => intro k; rfl
  | cons t rest ih =>
    intro k
    obtain ⟨a, b, c, d⟩ := t
    simp only [altBuild, hr, ih]

theorem alt_src_congr {env env' : Env} (hr : env.rand = env'.rand)
    (fgos mg mgname lvl : String) (n : Nat) :
    parse_alternative_source env fgos mg mgname lvl n =
      parse_alternative_source env' fgos mg mgname lvl n := by
  rw [parse_alternative_source_eq, parse_alternative_source_eq]
  unfold altPrograms
  rw [altBuild_congr hr fgos mg mgname lvl n]

theorem vuzi_congr {env env' : Env} (h : agreeExceptPostupi env env')
    (fgos mg mgname : String) (n : Nat) :
    parse_vuzopedia_vuzi env fgos mg mgname n =
      parse_vuzopedia_vuzi env' fgos mg mgname n := by
  obtain ⟨h1, h2, h3, h4⟩ := h
  unfold parse_vuzopedia_vuzi
  rw [h1, h2, alt_src_congr h4 fgos mg mgname "Высшее" n]

theorem coll_congr {env env' : Env} (h : agreeExceptPostupi env env')
    (fgos mg mgname : String) (n : Nat) :
    parse_vuzopedia_colleges env fgos mg mgname n =
      parse_vuzopedia_colleges env' fgos mg mgname n := by
  obtain ⟨h1, h2, h3, h4⟩ := h
  unfold parse_vuzopedia_colleges
  rw [h1, h3, alt_src_congr h4 fgos mg mgname "СПО" n]

theorem vuziLoop_congr {env env' : Env} (h : agreeExceptPostupi env env')
    (mgid mgname : String) (minP : Nat) :
    ∀ (codes : List String) (acc : List Rec),
      vuziLoop env mgid mgname minP codes acc = vuziLoop env' mgid mgname minP codes acc := by
  intro codes
  induction codes with
  | nil => intro acc; rfl
  | cons c cs ih =>
    intro acc
    simp only [vuziLoop, vuzi_congr h c mgid mgname acc.length, ih]

theorem collLoop_congr {env env' : Env} (h : agreeExceptPostupi env env')
    (mgid mgname : String) (minP : Nat) :
    ∀ (codes : List String) (acc : List Rec),
      collLoop env mgid mgname minP codes acc = collLoop env' mgid mgname minP codes acc := by
  intro codes
  induction codes with
  | nil => intro acc; rfl
  | cons c cs ih =>
    intro acc
    simp only [collLoop, coll_congr h c mgid mgname acc.length, ih]

theorem vuzPass_congr {env env' : Env} (h : agreeExceptPostupi env env') (minP : Nat) :
    ∀ (tl : TargetList) (acc : List Rec),
      vuzPass env minP tl acc = vuzPass env' minP tl acc := by
  intro tl
  induction tl with
  | nil => intro acc; rfl
  | cons mgp rest ih =>
    intro acc
    obtain ⟨mgid, mg⟩ := mgp
    simp only [vuzPass, vuziLoop_congr h mgid mg.name minP mg.vo_codes,
      collLoop_congr h mgid mg.name minP mg.spo_codes, ih]

/-- C3 amended: Fallback on a failed primary fetch goes directly to
the synthetic data; a successful primary fetch yields its usable records
with no further per-code fallback; a failed secondary fetch likewise falls
back to the synthetic data; and the secondary source is consulted only
when the first pass falls short of the minimum — when the first pass
reaches the minimum, the final output is entirely independent of the
secondary source. -/
theorem C3_amended_fallback_structure :
    (∀ (env : Env) (fgos mg mgname : String) (n : Nat), vuzFetchBad env fgos = true →
       parse_vuzopedia_vuzi env fgos mg mgname n =
         parse_alternative_source env fgos mg mgname "Высшее" n) ∧
    (∀ (env : Env) (fgos mg mgname : String) (n : Nat), vuzFetchBad env fgos = false →
       parse_vuzopedia_vuzi env fgos mg mgname n = .ok (vuzUsable env fgos mg mgname n)) ∧
    (∀ (env : Env) (fgos mg mgname lvl : String) (n : Nat),
       postupiFetchBad env lvl fgos = true →
       parse_postupi_online env fgos mg mgname lvl n =
         parse_alternative_source env fgos mg mgname lvl n) ∧
    (∀ (env env' : Env) (tl : TargetList) (minP : Nat), agreeExceptPostupi env env' →
       minP ≤ (firstPassData env tl minP).length →
       parse_all_sources env tl minP = parse_all_sources env' tl minP) := by
  refine ⟨?_, ?_, ?_, ?_⟩
  · intro env fgos mg mgname n h
    cases hb : env.vuzBase with
    | error e => simp only [parse_vuzopedia_vuzi, hb]
    | ok status =>
      simp only [vuzFetchBad, hb] at h
      by_cases hst : status ≠ 200
      · simp only [parse_vuzopedia_vuzi, hb, if_pos hst]
      · simp only [if_neg hst] at h
        cases hs : env.vuzSearch fgos with
        | error e => simp only [parse_vuzopedia_vuzi, hb, if_neg hst, hs]
        | ok p =>
          obtain ⟨st, elems⟩ := p
          simp only [hs] at h
          have hst2 : st ≠ 200 := of_decide_eq_true h
          simp only [parse_vuzopedia_vuzi, hb, if_neg hst, hs, if_pos hst2]
  · intro env fgos mg mgname n h
    cases hb : env.vuzBase with
    | error e => simp only [vuzFetchBad, hb] at h; exact absurd h (by decide)
    | ok status =>
      simp only [vuzFetchBad, hb] at h
      by_cases hst : status ≠ 200
      · simp only [if_pos hst] at h; exact absurd h (by decide)
      · simp only [if_neg hst] at h
        cases hs : env.vuzSearch fgos with
        | error e => simp only [hs] at h; exact absurd h (by decide)
        | ok p =>
          obtain ⟨st, elems⟩ := p
          simp only [hs] at h
          have hst2 : ¬st ≠ 200 := of_decide_eq_false h
          simp only [parse_vuzopedia_vuzi, vuzUsable, hb, if_neg hst, hs, if_neg hst2]
  · intro env fgos mg mgname lvl n h
    cases hb : env.postupiBase with
    | error e => simp only [parse_postupi_online, hb]
    | ok status =>
      simp only [postupiFetchBad, hb] at h
      by_cases hst : status ≠ 200
      · simp only [parse_postupi_online, hb, if_pos hst]
      · simp only [if_neg hst] at h
        cases hs : env.postupiSearch lvl fgos with
        | error e => simp only [parse_postupi_online, hb, if_neg hst, hs]
        | ok p =>
          obtain ⟨st, elems⟩ := p
          simp only [hs] at h
          have hst2 : st ≠ 200 := of_decide_eq_true h
          simp only [parse_postupi_online, hb, if_neg hst, hs, if_pos hst2]
  · intro env env' tl minP hag hlen
    obtain ⟨d, hd⟩ := vuzPass_ok env minP tl []
    have hd' : vuzPass env' minP tl [] = .ok d := by
      rw [← vuzPass_congr hag minP tl [], hd]
    have hlen' : minP ≤ d.length := by
      simp only [firstPassData, hd] at hlen
      exact hlen
    unfold parse_all_sources
    simp only [hd, hd']
    rw [if_neg (by omega : ¬d.length < minP), if_neg (by omega : ¬d.length < minP)]

/-- Witness for the amended C3 at concrete environments: a down primary
source falls straight to synthetic data, an up-but-empty primary source
yields its (empty) usable records, a down secondary source falls to
synthetic data, and once the first pass meets the minimum the output does
not change when the secondary source is unplugged. -/
theorem C3_amended_fallback_structure_witness :
    (parse_vuzopedia_vuzi envC3 "09.03.01" "1" "ИТ" 0 =
      parse_alternative_source envC3 "09.03.01" "1" "ИТ" "Высшее" 0) ∧
    (parse_vuzopedia_vuzi envOkEmpty "09.03.01" "1" "ИТ" 0 =
      .ok (vuzUsable envOkEmpty "09.03.01" "1" "ИТ" 0)) ∧
    (parse_postupi_online envC3' "09.03.01" "1" "ИТ" "Высшее" 0 =
      parse_alternative_source envC3' "09.03.01" "1" "ИТ" "Высшее" 0) ∧
    (parse_all_sources envC3 tlC3 1 = parse_all_sources envC3' tlC3 1) :=
  ⟨C3_amended_fallback_structure.1 envC3 "09.03.01" "1" "ИТ" 0 rfl,
   C3_amended_fallback_structure.2.1 envOkEmpty "09.03.01" "1" "ИТ" 0 rfl,
   C3_amended_fallback_structure.2.2.1 envC3' "09.03.01" "1" "ИТ" "Высшее" 0 rfl,
   C3_amended_fallback_structure.2.2.2 envC3 envC3' tlC3 1 ⟨rfl, rfl, rfl, rfl⟩
     (by decide)⟩

/-- C3 counterexample: In `envC3` the primary source fails and so
yields no usable records, while the secondary source would yield one; the
claimed tiered policy therefore returns the secondary source's record,
but the pipeline instead aggregates the synthetic-fallback records and
never returns the secondary source's record. -/
theorem C3_counterexample_tiered_order :
    vuzUsable envC3 "09.03.01" "1" "ИТ" 0 = [] ∧
    postupiUsable envC3 "Высшее" "09.03.01" "1" "ИТ" 0 ≠ [] ∧
    (claimTieredRetrieval envC3 "09.03.01" "1" "ИТ" 0).map Rec.institution_name =
      ["Российский государственный технологический университет"] ∧
    (collectedData envC3 tlC3 1).map Rec.institution_name =
      ["Московский государственный университет",
       "Санкт-Петербургский государственный университет",
       "Новосибирский государственный университет"] ∧
    collectedData envC3 tlC3 1 ≠ claimTieredRetrieval envC3 "09.03.01" "1" "ИТ" 0 :=
  ⟨rfl, by decide, by decide, by decide, by decide⟩

end Uchebprog
